import Mathlib

/-!
Verification of the `dcwiz-app-utils` repository: a shallow embedding of the
outbound API proxy (`api_proxy.py`), the error taxonomy and exception handlers
(`error.py`), the response envelope (`response.py`) and the Redis pool registry
(`db.py`), with theorems settling the behavioural claims about them.

Conventions: decoded JSON bodies are values of the inductive `Json`;
`Response.json()` is modelled as an `Option Json` field on the response
(`none` = `JSONDecodeError`); Python code that can raise is embedded as
`Except PyError _`; Python `or` on strings is `pyOrStr`.
-/

set_option autoImplicit false

namespace DCWiz

/-- A decoded JSON value, as produced by `Response.json()`. -/
inductive Json where
  | null
  | bool (b : Bool)
  | num (n : Int)
  | str (s : String)
  | arr (xs : List Json)
  | obj (fields : List (String × Json))
  deriving Repr

mutual

/-- Boolean equality on `Json` (the derive handler does not support the nested
occurrence of `List Json`, so equality is spelled out). -/
def Json.beq : Json → Json → Bool
  | .null, .null => true
  | .bool a, .bool b => decide (a = b)
  | .num a, .num b => decide (a = b)
  | .str a, .str b => decide (a = b)
  | .arr xs, .arr ys => Json.beqList xs ys
  | .obj fs, .obj gs => Json.beqFields fs gs
  | _, _ => false

def Json.beqList : List Json → List Json → Bool
  | [], [] => true
  | x :: xs, y :: ys => Json.beq x y && Json.beqList xs ys
  | _, _ => false

def Json.beqFields : List (String × Json) → List (String × Json) → Bool
  | [], [] => true
  | (k, v) :: fs, (l, w) :: gs => decide (k = l) && Json.beq v w && Json.beqFields fs gs
  | _, _ => false

end

mutual

theorem Json.eq_of_beq : ∀ {a b : Json}, Json.beq a b = true → a = b
  | .null, .null, _ => rfl
  | .bool _, .bool _, h => congrArg Json.bool (of_decide_eq_true h)
  | .num _, .num _, h => congrArg Json.num (of_decide_eq_true h)
  | .str _, .str _, h => congrArg Json.str (of_decide_eq_true h)
  | .arr _, .arr _, h => congrArg Json.arr (Json.eqList_of_beq h)
  | .obj _, .obj _, h => congrArg Json.obj (Json.eqFields_of_beq h)
  | .null, .bool _, h => Bool.noConfusion h
  | .null, .num _, h => Bool.noConfusion h
  | .null, .str _, h => Bool.noConfusion h
  | .null, .arr _, h => Bool.noConfusion h
  | .null, .obj _, h => Bool.noConfusion h
  | .bool _, .null, h => Bool.noConfusion h
  | .bool _, .num _, h => Bool.noConfusion h
  | .bool _, .str _, h => Bool.noConfusion h
  | .bool _, .arr _, h => Bool.noConfusion h
  | .bool _, .obj _, h => Bool.noConfusion h
  | .num _, .null, h => Bool.noConfusion h
  | .num _, .bool _, h => Bool.noConfusion h
  | .num _, .str _, h => Bool.noConfusion h
  | .num _, .arr _, h => Bool.noConfusion h
  | .num _, .obj _, h => Bool.noConfusion h
  | .str _, .null, h => Bool.noConfusion h
  | .str _, .bool _, h => Bool.noConfusion h
  | .str _, .num _, h => Bool.noConfusion h
  | .str _, .arr _, h => Bool.noConfusion h
  | .str _, .obj _, h => Bool.noConfusion h
  | .arr _, .null, h => Bool.noConfusion h
  | .arr _, .bool _, h => Bool.noConfusion h
  | .arr _, .num _, h => Bool.noConfusion h
  | .arr _, .str _, h => Bool.noConfusion h
  | .arr _, .obj _, h => Bool.noConfusion h
  | .obj _, .null, h => Bool.noConfusion h
  | .obj _, .bool _, h => Bool.noConfusion h
  | .obj _, .num _, h => Bool.noConfusion h
  | .obj _, .str _, h => Bool.noConfusion h
  | .obj _, .arr _, h => Bool.noConfusion h

theorem Json.eqList_of_beq : ∀ {xs ys : List Json}, Json.beqList xs ys = true → xs = ys
  | [], [], _ => rfl
  | x :: xs, y :: ys, h => by
      simp only [Json.beqList, Bool.and_eq_true] at h
      rw [Json.eq_of_beq h.1, Json.eqList_of_beq h.2]
  | [], _ :: _, h => Bool.noConfusion h
  | _ :: _, [], h => Bool.noConfusion h

theorem Json.eqFields_of_beq :
    ∀ {fs gs : List (String × Json)}, Json.beqFields fs gs = true → fs = gs
  | [], [], _ => rfl
  | (k, v) :: fs, (l, w) :: gs, h => by
      simp only [Json.beqFields, Bool.and_eq_true] at h
      rw [of_decide_eq_true h.1.1, Json.eq_of_beq h.1.2, Json.eqFields_of_beq h.2]
  | [], _ :: _, h => Bool.noConfusion h
  | _ :: _, [], h => Bool.noConfusion h

end

mutual

theorem Json.beq_refl : ∀ (a : Json), Json.beq a a = true
  | .null => rfl
  | .bool _ => decide_eq_true rfl
  | .num _ => decide_eq_true rfl
  | .str _ => decide_eq_true rfl
  | .arr xs => Json.beqList_refl xs
  | .obj fs => Json.beqFields_refl fs

theorem Json.beqList_refl : ∀ (xs : List Json), Json.beqList xs xs = true
  | [] => rfl
  | x :: xs => by
      simp only [Json.beqList, Bool.and_eq_true]
      exact ⟨Json.beq_refl x, Json.beqList_refl xs⟩

theorem Json.beqFields_refl : ∀ (fs : List (String × Json)), Json.beqFields fs fs = true
  | [] => rfl
  | (k, v) :: fs => by
      simp only [Json.beqFields, Bool.and_eq_true, decide_eq_true_eq]
      exact ⟨⟨trivial, Json.beq_refl v⟩, Json.beqFields_refl fs⟩

end

instance : DecidableEq Json := fun a b =>
  if h : Json.beq a b = true then .isTrue (Json.eq_of_beq h)
  else .isFalse (fun he => h (he ▸ Json.beq_refl a))

/-- Python exceptions that the embedded code can raise. -/
inductive PyError where
  | jsonDecodeError
  | keyError (k : String)
  | typeError (msg : String)
  | attributeError (msg : String)
  | validationError (msg : String)
  | indexError
  deriving Repr, DecidableEq

/-- First-match association-list lookup (Python dict lookup order is irrelevant
for the keys used here; registries insert at the front). -/
def lookupAssoc {K A : Type} [DecidableEq K] : List (K × A) → K → Option A
  | [], _ => none
  | (k, v) :: rest, key => if k = key then some v else lookupAssoc rest key

mutual

/-- Python `repr()` on decoded JSON values (used by `str()` on containers). -/
def pyRepr : Json → String
  | .null => "None"
  | .bool b => if b then "True" else "False"
  | .num n => toString n
  | .str s => "\x27" ++ s ++ "\x27"
  | .arr xs => "[" ++ pyReprItems xs ++ "]"
  | .obj fs => "\x7b" ++ pyReprFields fs ++ "\x7d"

def pyReprItems : List Json → String
  | [] => ""
  | [x] => pyRepr x
  | x :: y :: xs => pyRepr x ++ ", " ++ pyReprItems (y :: xs)

def pyReprFields : List (String × Json) → String
  | [] => ""
  | [(k, v)] => "\x27" ++ k ++ "\x27: " ++ pyRepr v
  | (k, v) :: f :: fs => "\x27" ++ k ++ "\x27: " ++ pyRepr v ++ ", " ++ pyReprFields (f :: fs)

end

/-- Python `str()` on decoded JSON values (as used by f-string interpolation). -/
def pyStr : Json → String
  | .str s => s
  | j => pyRepr j

/-- Python `a or b` where `a` is an optional string (`None` and `""` are falsy). -/
def pyOrStr (a : Option String) (b : String) : String :=
  match a with
  | some s => if s = "" then b else s
  | none => b

/-- The slice of an `httpx.Response` the embedded code reads: `status_code`,
`text`, and the outcome of `.json()` (`none` models `JSONDecodeError`). -/
structure HttpxResponse where
  status_code : Nat
  text : String
  jsonBody : Option Json
  deriving Repr, DecidableEq

/-- The exception class passed to / defaulted by `APIProxy._request`
(`DCWizAPIException` and its four subclasses in `error.py`). -/
inductive ExcClass where
  | generic
  | platform
  | data
  | service
  | auth
  deriving Repr, DecidableEq

/-- The state of a raised `DCWizAPIException` (subclass picked by `cls`):
method, full URL and raw response, plus the optional `message` argument. -/
structure APIExcData where
  cls : ExcClass
  method : String
  url : String
  response : HttpxResponse
  message : Option String := none
  deriving Repr, DecidableEq

/-- Outcome of one `APIProxy._request` call. -/
inductive RequestOutcome where
  | ok (body : Json)
  | apiError (e : APIExcData)
  | jsonDecodeError
  deriving Repr, DecidableEq

/-- Whether `pat` is a leading segment of `l` (helper for Python `in` on
strings, written by structural recursion so the kernel can evaluate it). -/
def charsLeadWith : List Char → List Char → Bool
  | [], _ => true
  | _ :: _, [] => false
  | a :: as, b :: bs => decide (a = b) && charsLeadWith as bs

/-- Whether `pat` occurs as a contiguous run inside `l`. -/
def charsContain (pat : List Char) : List Char → Bool
  | [] => charsLeadWith pat []
  | c :: cs => charsLeadWith pat (c :: cs) || charsContain pat cs

/-- Python `pat in s` on strings. -/
def strContainsSub (s pat : String) : Bool :=
  charsContain pat.data s.data

/-- Python `"://" in url`. -/
def containsScheme (url : String) : Bool :=
  strContainsSub url "://"

/-- URL resolution in `APIProxy._request`: absolute URLs are used verbatim,
anything else is appended to the base URL. -/
def fullUrlOf (baseUrl url : String) : String :=
  if containsScheme url then url else baseUrl ++ url

/-- `APIProxy._request`: resolve the URL, issue the call (the upstream response
`res` is the oracle input), raise `exception_class(method, url, response)` when
the status code is not 200, otherwise return `res.json()`. -/
def dcwizRequest (excClass : ExcClass) (baseUrl method url : String)
    (res : HttpxResponse) : RequestOutcome :=
  let full := fullUrlOf baseUrl url
  if res.status_code ≠ 200 then
    .apiError { cls := excClass, method := method, url := full, response := res }
  else
    match res.jsonBody with
    | some j => .ok j
    | none => .jsonDecodeError

/-- The per-surface default `exception_class` installed by `request`,
`utinni_request`, `service_request` and `auth_request`. -/
def surfaceExceptionClass : ExcClass → ExcClass := id

/-- Claim C2: for every single call to `request` on any surface, the exception
kind registered for that surface (carrying the method, the full URL, and the
raw response) is raised exactly when the upstream status code differs from
`200`; on a 200 status with a decodable body the call returns the decoded JSON
body. (Amended: the source tests `status_code != 200`, not "non-2xx".) -/
theorem C2_request_raises_iff_status_not_200 (ec : ExcClass) (b m u : String)
    (res : HttpxResponse) :
    ((∃ e : APIExcData, dcwizRequest ec b m u res = .apiError e ∧
        e.cls = ec ∧ e.method = m ∧ e.url = fullUrlOf b u ∧ e.response = res) ↔
      res.status_code ≠ 200) ∧
    (∀ j : Json, res.status_code = 200 → res.jsonBody = some j →
      dcwizRequest ec b m u res = .ok j) := by
  constructor
  · constructor
    · rintro ⟨e, he, -⟩ h200
      simp only [dcwizRequest, h200, ne_eq, not_true_eq_false, if_false] at he
      cases hj : res.jsonBody with
      | some j => rw [hj] at he; exact RequestOutcome.noConfusion he
      | none => rw [hj] at he; exact RequestOutcome.noConfusion he
    · intro h
      exact ⟨{ cls := ec, method := m, url := fullUrlOf b u, response := res },
        by simp [dcwizRequest, h], rfl, rfl, rfl, rfl⟩
  · intro j h200 hj
    simp [dcwizRequest, h200, hj]

/-- Witness for C2 at a concrete input: a 200 response returns its decoded
body, and a 404 response raises the registered exception kind. -/
theorem C2_request_raises_iff_status_not_200_witness :
    dcwizRequest .platform "http://svc" "GET" "/ok"
      { status_code := 200, text := "x", jsonBody := some (.num 7) } = .ok (.num 7) :=
  (C2_request_raises_iff_status_not_200 .platform "http://svc" "GET" "/ok"
      { status_code := 200, text := "x", jsonBody := some (.num 7) }).2
    (.num 7) rfl rfl

/-- Counterexample to C2 as stated: status 201 is 2xx, yet `_request` raises
the registered exception because the source compares against 200 exactly. -/
theorem C2_counterexample :
    (200 ≤ 201 ∧ 201 < 300) ∧
    dcwizRequest .platform "http://svc" "POST" "http://svc/things"
      { status_code := 201, text := "created", jsonBody := some .null } =
      .apiError { cls := .platform, method := "POST", url := "http://svc/things",
                  response := { status_code := 201, text := "created", jsonBody := some .null },
                  message := none } := by
  exact ⟨⟨by decide, by decide⟩, by decide⟩

/-! ## Fan-out batches (`APIProxy._parallel`)

`_parallel` creates one task per request triple inside a task group, then
collects `t.result()` per task in creation order (list case) or per key (dict
case). A task is a one-shot cell: the completion order decides only when each
cell is written, never which cell belongs to which triple. Completion order is
modelled as an arbitrary permutation of the task indices; `exec` is the network
oracle giving the decoded body of each sub-request (all sub-requests succeed,
as in the claim). -/

/-- One `(method, url, kwargs)` triple of a fan-out batch. -/
structure RequestTriple where
  method : String
  url : String
  kwargs : List (String × String)
  deriving Repr, DecidableEq, Inhabited

/-- Task `i` finishes: its cell receives the result of the `i`-th triple. -/
def writeResult {R : Type} (exec : RequestTriple → R) (reqs : List RequestTriple)
    (cells : List (Option R)) (i : Nat) : List (Option R) :=
  cells.set i (some (exec (reqs.getD i default)))

/-- Run every task to completion, in the order given by `order`. -/
def runCompletions {R : Type} (exec : RequestTriple → R) (reqs : List RequestTriple)
    (cells : List (Option R)) (order : List Nat) : List (Option R) :=
  order.foldl (writeResult exec reqs) cells

/-- `_parallel` on a list batch: `[t.result() for t in tasks]`, the cells read
back in task-creation order after all completions. -/
def parallelRequestList {R : Type} (exec : RequestTriple → R) (reqs : List RequestTriple)
    (order : List Nat) : List (Option R) :=
  runCompletions exec reqs (List.replicate reqs.length none) order

/-- `_parallel` on a dict batch: `{k: t.result() for k, t in tasks.items()}`,
each key bound to its own task's cell. -/
def parallelRequestDict {R : Type} (exec : RequestTriple → R)
    (kvs : List (String × RequestTriple)) (order : List Nat) : List (String × Option R) :=
  (kvs.map Prod.fst).zip
    (runCompletions exec (kvs.map Prod.snd) (List.replicate kvs.length none) order)

theorem length_runCompletions {R : Type} (exec : RequestTriple → R)
    (reqs : List RequestTriple) (order : List Nat) (cells : List (Option R)) :
    (runCompletions exec reqs cells order).length = cells.length := by
  induction order generalizing cells with
  | nil => rfl
  | cons i rest ih =>
      simp [runCompletions, List.foldl_cons, writeResult] at *
      rw [ih]
      simp

theorem runCompletions_getElem_not_mem {R : Type} (exec : RequestTriple → R)
    (reqs : List RequestTriple) (order : List Nat) (cells : List (Option R)) (i : Nat)
    (hni : i ∉ order) :
    (runCompletions exec reqs cells order)[i]? = cells[i]? := by
  induction order generalizing cells with
  | nil => rfl
  | cons j rest ih =>
      have hij : i ≠ j := fun h => hni (h ▸ List.mem_cons_self j rest)
      have hrest : i ∉ rest := fun h => hni (List.mem_cons_of_mem j h)
      show (runCompletions exec reqs (writeResult exec reqs cells j) rest)[i]? = _
      rw [ih _ hrest]
      simp [writeResult, List.getElem?_set_ne (Ne.symm hij)]

theorem runCompletions_getElem_mem {R : Type} (exec : RequestTriple → R)
    (reqs : List RequestTriple) (order : List Nat) (cells : List (Option R)) (i : Nat)
    (hmem : i ∈ order) (hlen : i < cells.length) :
    (runCompletions exec reqs cells order)[i]? = some (some (exec (reqs.getD i default))) := by
  induction order generalizing cells with
  | nil => cases hmem
  | cons j rest ih =>
      show (runCompletions exec reqs (writeResult exec reqs cells j) rest)[i]? = _
      by_cases hr : i ∈ rest
      · exact ih _ hr (by simpa [writeResult] using hlen)
      · have hij : i = j := by
          rcases List.mem_cons.mp hmem with h | h
          · exact h
          · exact absurd h hr
        subst hij
        rw [runCompletions_getElem_not_mem exec reqs rest _ i hr]
        simp [writeResult, List.getElem?_set_self, hlen]

/-- Claim C1: a fan-out batch given as an ordered sequence of `N` triples
returns, for every completion order, the ordered sequence of the `N` decoded
bodies positionally matching the inputs; a batch given as a mapping returns a
mapping with exactly the input keys, each key bound to its own request's
result. -/
theorem C1_parallel_preserves_shape {R : Type} :
    (∀ (exec : RequestTriple → R) (reqs : List RequestTriple) (order : List Nat),
      order.Perm (List.range reqs.length) →
      parallelRequestList exec reqs order = reqs.map (fun r => some (exec r))) ∧
    (∀ (exec : RequestTriple → R) (kvs : List (String × RequestTriple)) (order : List Nat),
      order.Perm (List.range kvs.length) →
      (parallelRequestDict exec kvs order).map Prod.fst = kvs.map Prod.fst ∧
      parallelRequestDict exec kvs order = kvs.map (fun kr => (kr.1, some (exec kr.2)))) := by
  have main : ∀ (exec : RequestTriple → R) (reqs : List RequestTriple) (order : List Nat),
      order.Perm (List.range reqs.length) →
      parallelRequestList exec reqs order = reqs.map (fun r => some (exec r)) := by
    intro exec reqs order hperm
    have hmem : ∀ i, i ∈ order ↔ i < reqs.length := by
      intro i
      rw [hperm.mem_iff, List.mem_range]
    apply List.ext_getElem?
    intro i
    by_cases hi : i < reqs.length
    · rw [parallelRequestList,
        runCompletions_getElem_mem exec reqs order _ i ((hmem i).mpr hi) (by simpa using hi)]
      rw [List.getElem?_map, List.getElem?_eq_getElem hi]
      simp [List.getD, List.getElem?_eq_getElem hi]
    · have h1 : (parallelRequestList exec reqs order).length = reqs.length := by
        simpa [parallelRequestList] using
          length_runCompletions exec reqs order (List.replicate reqs.length none)
      rw [List.getElem?_eq_none (by rw [h1]; omega),
        List.getElem?_eq_none (by simp only [List.length_map]; omega)]
  refine ⟨main, ?_⟩
  intro exec kvs order hperm
  have hlen : kvs.length = (kvs.map Prod.snd).length := by simp
  have h := main exec (kvs.map Prod.snd) order (by simpa using hperm)
  have hcells : parallelRequestDict exec kvs order =
      (kvs.map Prod.fst).zip ((kvs.map Prod.snd).map (fun r => some (exec r))) := by
    rw [parallelRequestDict, ← h]
    rw [parallelRequestList, hlen]
  constructor
  · rw [hcells]
    apply List.map_fst_zip
    simp
  · rw [hcells, List.map_map, List.zip_map']
    simp [Function.comp_def]

/-- Witness for C1 at a concrete batch of three requests completed in the
order 2, 0, 1, and a two-key dict batch completed in reverse order. -/
theorem C1_parallel_preserves_shape_witness :
    parallelRequestList (fun r => r.url) [⟨"GET", "/a", []⟩, ⟨"GET", "/b", []⟩, ⟨"GET", "/c", []⟩]
      [2, 0, 1] = [some "/a", some "/b", some "/c"] ∧
    parallelRequestDict (fun r => r.url) [("x", ⟨"GET", "/a", []⟩), ("y", ⟨"POST", "/b", []⟩)]
      [1, 0] = [("x", some "/a"), ("y", some "/b")] :=
  ⟨((C1_parallel_preserves_shape.1 (fun r => r.url) _ _ (by decide)).trans (by decide)),
   ((C1_parallel_preserves_shape.2 (fun r => r.url) _ _ (by decide)).2.trans (by decide))⟩

/-! ## Response envelope (`response.py`) -/

/-- Split a character list at every occurrence of the separator `c`
(Python `str.split` with a one-character separator). -/
def splitChars (c : Char) : List Char → List (List Char)
  | [] => [[]]
  | x :: xs =>
    match splitChars c xs with
    | [] => [[]]
    | y :: ys => if x = c then [] :: y :: ys else (x :: y) :: ys

/-- `str(t).split("[")[1].split("]")[0].split(".")[-1]` from `response_wrapper`
(the `extra_name` computation for classes named `List`; the `[1]` subscript is
modelled with a default since `str(typing.List[...])` always contains `[`). -/
def lastNameComponent (s : String) : String :=
  let part1 := (splitChars (Char.ofNat 91) s.data).getD 1 []
  let part2 := (splitChars (Char.ofNat 93) part1).headD []
  let part3 := (splitChars (Char.ofNat 46) part2).getLastD []
  String.mk part3

/-- Identity of a pydantic model class produced by `pydantic.create_model`:
its name plus a creation stamp, so distinct `create_model` calls yield
distinct class objects even for equal names. -/
structure EnvelopeType where
  name : String
  stamp : Nat
  deriving Repr, DecidableEq

/-- The statically defined `ResponseBase` model (`message` and `errors`
fields, no `result` field). -/
def ResponseBase : EnvelopeType := { name := "ResponseBase", stamp := 0 }

/-- The slice of a Python class object read by `response.py`: `__name__`,
`str(cls)`, and whether it subclasses `starlette.responses.Response`; `uid`
models object identity, so two distinct classes may share a `__name__`. -/
structure PyClass where
  name : String
  strRep : String
  uid : Nat
  isResponseSubclass : Bool
  deriving Repr, DecidableEq

/-- A handler's declared return annotation as inspected by `wrap_response` and
`response_wrapper`: absent/`None`, a plain class, or `list[cls]`. -/
inductive RetAnnotation where
  | noneT
  | cls (c : PyClass)
  | listOf (c : PyClass)
  deriving Repr, DecidableEq

/-- The envelope-name derivation of `response_wrapper` (`many` records that
the annotation was `list[...]`). -/
def derivedEnvelopeName (base : PyClass) (many : Bool) : String :=
  let extraName := if base.name = "List" then lastNameComponent base.strRep else ""
  if many then base.name ++ "ListResponse" ++ extraName
  else base.name ++ "Response" ++ extraName

/-- The name under which `response_wrapper` memoizes each annotation. -/
def derivedNameOf : RetAnnotation → String
  | .noneT => "ResponseBase"
  | .cls c => derivedEnvelopeName c false
  | .listOf c => derivedEnvelopeName c true

/-- The module-level `_response_wrapper_cache`, plus the stamp supply that
models allocation of new `create_model` class objects. -/
structure WrapperCache where
  entries : List (String × EnvelopeType)
  nextStamp : Nat
  deriving Repr, DecidableEq

/-- `if name not in _response_wrapper_cache: _response_wrapper_cache[name] =
pydantic.create_model(...)` followed by `return _response_wrapper_cache[name]`. -/
def createOrGet (cache : WrapperCache) (name : String) : EnvelopeType × WrapperCache :=
  match lookupAssoc cache.entries name with
  | some env => (env, cache)
  | none =>
      let env : EnvelopeType := { name := name, stamp := cache.nextStamp }
      (env, { entries := (name, env) :: cache.entries, nextStamp := cache.nextStamp + 1 })

/-- `response_wrapper`: a falsy annotation yields `ResponseBase`; otherwise
the derived name is computed and the per-name memo consulted, creating the
model only on a miss. -/
def response_wrapper (cache : WrapperCache) : RetAnnotation → EnvelopeType × WrapperCache
  | .noneT => (ResponseBase, cache)
  | .cls c => createOrGet cache (derivedEnvelopeName c false)
  | .listOf c => createOrGet cache (derivedEnvelopeName c true)

/-- Cache well-formedness: every memo entry is stored under its own name. -/
def WrapperCache.WF (cache : WrapperCache) : Prop :=
  ∀ p ∈ cache.entries, (p.2).name = p.1

theorem lookupAssoc_mem {K A : Type} [DecidableEq K] :
    ∀ (l : List (K × A)) (key : K) (v : A), lookupAssoc l key = some v → (key, v) ∈ l
  | [], _, _, h => Option.noConfusion h
  | (k, _) :: rest, key, v, h => by
      by_cases hk : k = key
      · subst hk
        simp only [lookupAssoc, if_pos rfl] at h
        cases h
        exact List.mem_cons_self _ _
      · simp only [lookupAssoc, if_neg hk] at h
        exact List.mem_cons_of_mem _ (lookupAssoc_mem rest key v h)

theorem name_createOrGet (cache : WrapperCache) (name : String) (hwf : cache.WF) :
    (createOrGet cache name).1.name = name := by
  unfold createOrGet
  cases h : lookupAssoc cache.entries name with
  | some env => exact hwf (name, env) (lookupAssoc_mem cache.entries name env h)
  | none => rfl

theorem name_response_wrapper (cache : WrapperCache) (t : RetAnnotation) (hwf : cache.WF) :
    (response_wrapper cache t).1.name = derivedNameOf t := by
  cases t with
  | noneT => rfl
  | cls c => exact name_createOrGet cache _ hwf
  | listOf c => exact name_createOrGet cache _ hwf

theorem createOrGet_stable (cache : WrapperCache) (name : String) :
    (createOrGet (createOrGet cache name).2 name).1 = (createOrGet cache name).1 := by
  unfold createOrGet
  cases h : lookupAssoc cache.entries name with
  | some env => simp [h]
  | none => simp [h, lookupAssoc]

/-- Claim C9 (amended): `response_wrapper` memoizes per derived envelope NAME,
not per payload type. Repeated calls with the same annotation return the
identical envelope type; annotations with different derived names — in
particular `list[T]` versus `T` — get distinct envelope types; but two
distinct payload classes sharing a `__name__` collide onto the envelope of
whichever was derived first. -/
theorem C9_response_wrapper_memoized_by_name (st : WrapperCache) (t t1 t2 : RetAnnotation)
    (hwf : st.WF) (hne : derivedNameOf t1 ≠ derivedNameOf t2) :
    (response_wrapper (response_wrapper st t).2 t).1 = (response_wrapper st t).1 ∧
    (response_wrapper st t1).1 ≠ (response_wrapper st t2).1 ∧
    (∀ c : PyClass, derivedNameOf (.listOf c) ≠ derivedNameOf (.cls c)) := by
  refine ⟨?_, ?_, ?_⟩
  · cases t with
    | noneT => rfl
    | cls c => exact createOrGet_stable st _
    | listOf c => exact createOrGet_stable st _
  · intro h
    exact hne (by
      rw [← name_response_wrapper st t1 hwf, ← name_response_wrapper st t2 hwf, h])
  · intro c h
    have h' : c.name ++ "ListResponse" ++ (if c.name = "List" then lastNameComponent c.strRep else "") =
        c.name ++ "Response" ++ (if c.name = "List" then lastNameComponent c.strRep else "") := h
    have hlen := congrArg String.length h'
    simp only [String.length_append] at hlen
    have h12 : ("ListResponse" : String).length = 12 := rfl
    have h8 : ("Response" : String).length = 8 := rfl
    rw [h12, h8] at hlen
    omega

/-- Payload class `Foo` as imported from one module. -/
def fooClassA : PyClass :=
  { name := "Foo", strRep := "<class modA.Foo>", uid := 1, isResponseSubclass := false }

/-- A different payload class that happens to share the `__name__` `Foo`. -/
def fooClassB : PyClass :=
  { name := "Foo", strRep := "<class modB.Foo>", uid := 2, isResponseSubclass := false }

/-- The empty `_response_wrapper_cache` at process start. -/
def emptyWrapperCache : WrapperCache := { entries := [], nextStamp := 1 }

/-- Witness for C9 at concrete inputs: re-deriving for `Foo` returns the
identical envelope, and `list[Foo]` gets a different envelope than `Foo`. -/
theorem C9_response_wrapper_memoized_by_name_witness :
    (response_wrapper (response_wrapper emptyWrapperCache (.cls fooClassA)).2
        (.cls fooClassA)).1 = (response_wrapper emptyWrapperCache (.cls fooClassA)).1 ∧
    (response_wrapper emptyWrapperCache (.cls fooClassA)).1 ≠
      (response_wrapper emptyWrapperCache (.listOf fooClassA)).1 :=
  ⟨(C9_response_wrapper_memoized_by_name emptyWrapperCache (.cls fooClassA) (.cls fooClassA)
      (.listOf fooClassA) (by intro p hp; cases hp) (by decide)).1,
   (C9_response_wrapper_memoized_by_name emptyWrapperCache (.cls fooClassA) (.cls fooClassA)
      (.listOf fooClassA) (by intro p hp; cases hp) (by decide)).2.1⟩

/-- Counterexample to C9 as stated: `fooClassA` and `fooClassB` are distinct
payload types, yet `response_wrapper` returns the identical (first-created)
envelope type for both, because the memo key is only the class `__name__`. -/
theorem C9_counterexample :
    fooClassA ≠ fooClassB ∧
    (response_wrapper (response_wrapper emptyWrapperCache (.cls fooClassA)).2
        (.cls fooClassB)).1 = (response_wrapper emptyWrapperCache (.cls fooClassA)).1 := by
  exact ⟨by decide, by decide⟩

/-- Output of one call to a `wrap_response`-wrapped handler: either the raw
handler return value (the `Response`-subclass bypass) or an envelope object. -/
inductive WrappedOutput (V : Type) where
  | raw (v : V)
  | envelope (message : String) (result : Option V)
  deriving Repr, DecidableEq

/-- `isclass(ret_type) and issubclass(ret_type, Response)`. -/
def isResponseClass : RetAnnotation → Bool
  | .cls c => c.isResponseSubclass
  | _ => false

/-- One call through `wrap_response(message)` applied to a handler whose
declared return annotation is `retType` and whose body returned `v`:
`Response` subclasses bypass the wrapper entirely; otherwise the envelope is
constructed with the display message, and with `result` exactly when the
annotation is not `None`. -/
def wrap_response {V : Type} (message : Option String) (retType : RetAnnotation) (v : V) :
    WrappedOutput V :=
  if isResponseClass retType then .raw v
  else
    match retType with
    | .noneT => .envelope (message.getD "") none
    | _ => .envelope (message.getD "") (some v)

/-- Whether the call produced an object carrying a `message` field. -/
def WrappedOutput.hasMessageField {V : Type} : WrappedOutput V → Bool
  | .raw _ => false
  | .envelope _ _ => true

/-- The `message` field of the produced object, when it has one. -/
def WrappedOutput.messageField {V : Type} : WrappedOutput V → Option String
  | .raw _ => none
  | .envelope m _ => some m

/-- The `result` field of the produced object (`none` = absent). -/
def WrappedOutput.resultField {V : Type} : WrappedOutput V → Option V
  | .raw _ => none
  | .envelope _ r => r

/-- Claim C7 (amended): for handlers whose declared return type is NOT a
`Response` subclass, the wrapped call returns an envelope whose `message`
field is always present (the supplied message, defaulting to `""`), and whose
`result` field is absent if and only if the declared type is `None`; a
`Response`-subclass return type bypasses the envelope entirely. -/
theorem C7_wrap_response_envelope {V : Type} (message : Option String)
    (retType : RetAnnotation) (v : V) (h : isResponseClass retType = false) :
    (wrap_response message retType v).hasMessageField = true ∧
    (wrap_response message retType v).messageField = some (message.getD "") ∧
    ((wrap_response message retType v).resultField = none ↔ retType = .noneT) ∧
    (retType ≠ .noneT → (wrap_response message retType v).resultField = some v) := by
  cases retType with
  | noneT =>
      simp [wrap_response, isResponseClass, WrappedOutput.hasMessageField,
        WrappedOutput.messageField, WrappedOutput.resultField]
  | cls c =>
      simp [wrap_response, h, WrappedOutput.hasMessageField,
        WrappedOutput.messageField, WrappedOutput.resultField]
  | listOf c =>
      simp [wrap_response, isResponseClass, WrappedOutput.hasMessageField,
        WrappedOutput.messageField, WrappedOutput.resultField]

/-- Witness for C7 at a concrete handler: return type `Foo`, body returns 5. -/
theorem C7_wrap_response_envelope_witness :
    (wrap_response (some "ok") (.cls fooClassA) (5 : Nat)).hasMessageField = true ∧
    (wrap_response (some "ok") (.cls fooClassA) (5 : Nat)).resultField = some 5 :=
  ⟨(C7_wrap_response_envelope (some "ok") (.cls fooClassA) 5 rfl).1,
   (C7_wrap_response_envelope (some "ok") (.cls fooClassA) 5 rfl).2.2.2 (by decide)⟩

/-- A handler return annotation that subclasses `starlette.responses.Response`. -/
def fileResponseClass : PyClass :=
  { name := "FileResponse", strRep := "<class starlette.responses.FileResponse>", uid := 9,
    isResponseSubclass := true }

/-- Counterexample to C7 as stated: a handler whose declared return type is a
`Response` subclass is returned unwrapped, so its output has no `message`
field at all. -/
theorem C7_counterexample :
    wrap_response (some "done") (.cls fileResponseClass) (42 : Nat) = .raw 42 ∧
    (wrap_response (some "done") (.cls fileResponseClass) (42 : Nat)).hasMessageField = false := by
  exact ⟨rfl, rfl⟩

/-! ## Error taxonomy and exception handlers (`error.py`) -/

/-- `ErrorCode` from `error.py`. -/
inductive ErrorCode where
  | ERR_API_ERROR
  | ERR_DATA_ERROR
  | ERR_INTERNAL_ERROR
  | ERR_AUTH_ERROR
  deriving Repr, DecidableEq

/-- `ErrorSeverity` from `error.py`. -/
inductive ErrorSeverity where
  | critical
  | error
  | warning
  | info
  | debug
  deriving Repr, DecidableEq

/-- A serialized `Error(...).dict()` entry: `{type, severity, message}`
(`message` is `str | dict`, default `None`, kept as `Json`). -/
structure ErrorEntry where
  type : String
  severity : ErrorSeverity
  message : Json
  deriving Repr, DecidableEq

/-- The body every handler builds: `{error_message_key?, message, errors?}`
(`none` in an `Option` field = the key is absent from the dict). -/
structure RenderContent where
  error_message_key : Option ErrorCode
  message : Json
  errors : Option (List ErrorEntry)
  deriving Repr, DecidableEq

/-- The `{status_code, content}` pair a handler returns (fed to `JSONResponse`). -/
structure RenderResult where
  status_code : Nat
  content : RenderContent
  deriving Repr, DecidableEq

/-- Python subscription `j[k]` on a decoded JSON value. -/
def jsonGetItem (j : Json) (k : String) : Except PyError Json :=
  match j with
  | .obj fields =>
      match lookupAssoc fields k with
      | some v => .ok v
      | none => .error (.keyError k)
  | _ => .error (.typeError "object is not subscriptable")

/-- Python membership `k in j` on a decoded JSON value. -/
def pyContains (j : Json) (k : String) : Except PyError Bool :=
  match j with
  | .obj fields => .ok (lookupAssoc fields k).isSome
  | .arr xs => .ok (xs.contains (.str k))
  | .str s => .ok (strContainsSub s k)
  | _ => .error (.typeError "argument is not iterable")

/-- Parsing a severity value (`ErrorSeverity` is a `str` enum). -/
def severityOfString : String → Option ErrorSeverity
  | "Critical" => some .critical
  | "Error" => some .error
  | "Warning" => some .warning
  | "Info" => some .info
  | "Debug" => some .debug
  | _ => none

/-- `Error(**e).dict()`: `e` must be a mapping; `type` is required, `severity`
defaults to `Error` and must be a valid severity value, `message` defaults to
`None` and must be a string or a dict. -/
def errorFromJson (e : Json) : Except PyError ErrorEntry :=
  match e with
  | .obj fields =>
      match lookupAssoc fields "type" with
      | some (.str t) =>
          let sev : Except PyError ErrorSeverity :=
            match lookupAssoc fields "severity" with
            | none => .ok .error
            | some (.str s) =>
                match severityOfString s with
                | some sv => .ok sv
                | none => .error (.validationError "severity")
            | some _ => .error (.validationError "severity")
          match sev with
          | .error err => .error err
          | .ok sv =>
              match lookupAssoc fields "message" with
              | none => .ok { type := t, severity := sv, message := .null }
              | some (.str m) => .ok { type := t, severity := sv, message := .str m }
              | some (.obj o) => .ok { type := t, severity := sv, message := .obj o }
              | some _ => .error (.validationError "message")
      | some _ => .error (.validationError "type")
      | none => .error (.validationError "type required")
  | _ => .error (.typeError "argument after ** must be a mapping")

/-- `f"Error {method}ing {url}, get status code {status_code}"`. -/
def apiSummary (exc : APIExcData) : String :=
  "Error " ++ exc.method ++ "ing " ++ exc.url ++ ", get status code " ++
    toString exc.response.status_code

/-- `f"Data Error: {method} {url}: {status_code}"`. -/
def dataSummary (exc : APIExcData) : String :=
  "Data Error: " ++ exc.method ++ " " ++ exc.url ++ ": " ++
    toString exc.response.status_code

/-- `DCWizAPIException.exception_handler`: it reads
`exc.response.error_message_key`, an attribute `httpx.Response` objects do not
have, so this handler raises `AttributeError` whenever it runs. -/
def genericAPIHandler (_exc : APIExcData) : Except PyError RenderResult :=
  .error (.attributeError "Response object has no attribute error_message_key")

/-- `DCWizPlatformAPIException.exception_handler`: try to decode the body,
falling back to the raw text on `JSONDecodeError`. -/
def platformAPIHandler (exc : APIExcData) : Except PyError RenderResult :=
  let error : Json :=
    match exc.response.jsonBody with
    | some j => j
    | none => .str exc.response.text
  .ok { status_code := exc.response.status_code,
        content := {
          error_message_key := some .ERR_DATA_ERROR,
          message := .str (pyOrStr exc.message (apiSummary exc)),
          errors := some [{ type := "API Error", severity := .error, message := error }] } }

/-- Unpacking `for k, v in detail` over one item of a `detail` list, producing
`f"{k}:{v}"`. -/
def detailEntry (it : Json) : Except PyError ErrorEntry :=
  match it with
  | .arr [k, v] =>
      .ok { type := "Data Error", severity := .error, message := .str (pyStr k ++ ":" ++ pyStr v) }
  | _ => .error (.typeError "cannot unpack")

/-- `DCWizDataAPIException.exception_handler`: only `JSONDecodeError` is
caught; a missing or malformed `detail` key propagates. -/
def dataAPIHandler (exc : APIExcData) : Except PyError RenderResult := do
  let errors ←
    match exc.response.jsonBody with
    | none =>
        pure [{ type := "API Error", severity := ErrorSeverity.error,
                message := Json.str exc.response.text }]
    | some j => do
        let detail ← jsonGetItem j "detail"
        match detail with
        | .arr items => items.mapM detailEntry
        | d => pure [{ type := "Data Error", severity := ErrorSeverity.error,
                       message := Json.str (pyStr d) }]
  pure { status_code := exc.response.status_code,
         content := {
           error_message_key := some .ERR_API_ERROR,
           message := .str (pyOrStr exc.message (dataSummary exc)),
           errors := some errors } }

/-- `content["errors"] = [Error(**e).dict() for e in error["errors"]]`,
guarded by `if "errors" in error` (shared verbatim by the service-API and auth
handlers). -/
def contentErrorsFromBody (error : Json) : Except PyError (Option (List ErrorEntry)) := do
  let hasErrors ← pyContains error "errors"
  if hasErrors then do
    let raw ← jsonGetItem error "errors"
    match raw with
    | .arr items => do
        let entries ← items.mapM errorFromJson
        pure (some entries)
    | _ => Except.error (.typeError "not iterable")
  else pure none

/-- `DCWizServiceAPIException.exception_handler`: `exc.response.json()` is
called outside any `try`, so a non-JSON body raises `JSONDecodeError`; the
decoded body's `message` is read with a bare subscript (but only when
`exc.message` is falsy, because Python `or` short-circuits). -/
def serviceAPIHandler (exc : APIExcData) : Except PyError RenderResult := do
  let error ←
    match exc.response.jsonBody with
    | some j => pure j
    | none => Except.error PyError.jsonDecodeError
  let msg : Json ←
    match exc.message with
    | some s => if s = "" then jsonGetItem error "message" else pure (.str s)
    | none => jsonGetItem error "message"
  let errorsField ← contentErrorsFromBody error
  pure { status_code := exc.response.status_code,
         content := {
           error_message_key := some .ERR_API_ERROR,
           message := msg,
           errors := errorsField } }

/-- `DCWizAuthException.exception_handler`: canned 401/403 message, then
`exc.response.json()` outside any `try` (a non-JSON body raises). -/
def authHandler (exc : APIExcData) : Except PyError RenderResult := do
  let canned : String :=
    if exc.response.status_code = 401 then "Not Authenticated, please login."
    else "Not Authorized, please use a different account."
  let error ←
    match exc.response.jsonBody with
    | some j => pure j
    | none => Except.error PyError.jsonDecodeError
  let errorsField ← contentErrorsFromBody error
  pure { status_code := exc.response.status_code,
         content := {
           error_message_key := some .ERR_AUTH_ERROR,
           message := .str (pyOrStr exc.message canned),
           errors := errorsField } }

/-- The state of a raised `DCWizServiceException`. -/
structure ServiceExcData where
  error_message_key : ErrorCode := .ERR_INTERNAL_ERROR
  message : Option String := none
  errors : Option (List ErrorEntry) := none
  status_code : Nat := 500
  deriving Repr, DecidableEq

/-- `DCWizServiceException.exception_handler` (the `errors` key is added only
when `exc.errors` is truthy, i.e. neither `None` nor empty). -/
def dcwizServiceHandler (e : ServiceExcData) : Except PyError RenderResult :=
  .ok { status_code := e.status_code,
        content := {
          error_message_key := some e.error_message_key,
          message := .str (pyOrStr e.message "Internal Service Error"),
          errors := match e.errors with
            | some l => if l.isEmpty then none else some l
            | none => none } }

/-- Dispatch of `inner_exc.exception_handler` by the exception's class. -/
def apiHandlerFor (e : APIExcData) : Except PyError RenderResult :=
  match e.cls with
  | .generic => genericAPIHandler e
  | .platform => platformAPIHandler e
  | .data => dataAPIHandler e
  | .service => serviceAPIHandler e
  | .auth => authHandler e

/-- A member of an `ExceptionGroup` reaching `exception_group_handler`:
a `DCWizServiceException`, a `DCWizAPIException` (any subclass), or an
unrelated exception (kept as its `str()`). -/
inductive GroupMember where
  | service (e : ServiceExcData)
  | api (e : APIExcData)
  | other (s : String)
  deriving Repr, DecidableEq

/-- Python `summary.rstrip(".!")`: drop every trailing dot or bang. -/
def rstripPunct (s : String) : String :=
  String.mk ((s.data.reverse.dropWhile (fun c => decide (c = Char.ofNat 46) ||
    decide (c = Char.ofNat 33))).reverse)

/-- `error["message"] = f"{summary.rstrip(...)}: {error.get(...)}"` applied to
one inner entry. -/
def prefixEntry (summary : String) (e : ErrorEntry) : ErrorEntry :=
  { e with message := .str (rstripPunct summary ++ ": " ++ pyStr e.message) }

/-- The loop body of `exception_group_handler` for DCWiz members: render the
member, read its summary message and inner errors, append one `Unknown` entry
when it has none, otherwise append every inner entry prefixed with the
(rstripped) summary; a non-string summary with inner entries would hit
`summary.rstrip` and raise `AttributeError`. -/
def processDCWiz (acc : List ErrorEntry) (r : Except PyError RenderResult) :
    Except PyError (List ErrorEntry) :=
  match r with
  | .error err => .error err
  | .ok result =>
      let summary := result.content.message
      let inner := result.content.errors.getD []
      if inner.isEmpty then
        match summary with
        | .str _ => .ok (acc ++ [{ type := "Unknown", severity := .error, message := summary }])
        | .obj _ => .ok (acc ++ [{ type := "Unknown", severity := .error, message := summary }])
        | _ => .error (.validationError "Error message")
      else
        match summary with
        | .str s => .ok (acc ++ inner.map (prefixEntry s))
        | _ => .error (.attributeError "rstrip")

/-- One iteration of the member loop of `exception_group_handler`. -/
def processMember (acc : List ErrorEntry) (m : GroupMember) : Except PyError (List ErrorEntry) :=
  match m with
  | .service e => processDCWiz acc (dcwizServiceHandler e)
  | .api e => processDCWiz acc (apiHandlerFor e)
  | .other s =>
      .ok (acc ++ [{ type := "Unknown Exception Group", severity := .error, message := .str s }])

/-- The status-code selection at the top of `exception_group_handler`: the
sole member's own status only when it is a `DCWizServiceException`, else 500. -/
def groupStatusCode : List GroupMember → Nat
  | [GroupMember.service e] => e.status_code
  | _ => 500

/-- `content["error_message_key"]` is added only for a singleton
`DCWizServiceException` group. -/
def groupKey : List GroupMember → Option ErrorCode
  | [GroupMember.service e] => some e.error_message_key
  | _ => none

/-- The accumulated `errors` list of `exception_group_handler`. -/
def groupErrorsList (ms : List GroupMember) : Except PyError (List ErrorEntry) :=
  ms.foldlM processMember []

/-- The entries one member alone contributes. -/
def memberEntriesOf (m : GroupMember) : Except PyError (List ErrorEntry) :=
  processMember [] m

/-- `exception_group_handler`: status as in `groupStatusCode`, the member loop,
then `message = "Multiple Errors" if len(errors) > 1 else errors[0]["message"]`
(an empty group would hit `errors[0]` and raise `IndexError`). -/
def exception_group_handler (ms : List GroupMember) : Except PyError RenderResult :=
  match groupErrorsList ms with
  | .error err => .error err
  | .ok [] => .error .indexError
  | .ok (e :: rest) =>
      .ok { status_code := groupStatusCode ms,
            content := { error_message_key := groupKey ms,
                         message := if rest.isEmpty then e.message else .str "Multiple Errors",
                         errors := some (e :: rest) } }

/-- The status code of a successful render. -/
def statusOfRender : Except PyError RenderResult → Option Nat
  | .ok r => some r.status_code
  | .error _ => none

/-- The top-level message of a successful render. -/
def messageOfRender : Except PyError RenderResult → Option Json
  | .ok r => some r.content.message
  | .error _ => none

theorem processDCWiz_shift (acc : List ErrorEntry) (r : Except PyError RenderResult) :
    processDCWiz acc r = (processDCWiz [] r).map (fun l => acc ++ l) := by
  cases r with
  | error err => rfl
  | ok result =>
      unfold processDCWiz
      by_cases hi : (result.content.errors.getD []).isEmpty <;>
        cases hm : result.content.message <;> simp [hi, hm, Except.map]

theorem processMember_shift (acc : List ErrorEntry) (m : GroupMember) :
    processMember acc m = (memberEntriesOf m).map (fun l => acc ++ l) := by
  cases m with
  | service e =>
      show processDCWiz acc (dcwizServiceHandler e) =
        (processDCWiz [] (dcwizServiceHandler e)).map (fun l => acc ++ l)
      exact processDCWiz_shift acc _
  | api e =>
      show processDCWiz acc (apiHandlerFor e) =
        (processDCWiz [] (apiHandlerFor e)).map (fun l => acc ++ l)
      exact processDCWiz_shift acc _
  | other s => simp [processMember, memberEntriesOf, Except.map]

theorem groupErrors_foldlM_shift (ms : List GroupMember) :
    ∀ acc : List ErrorEntry,
      ms.foldlM processMember acc = (groupErrorsList ms).map (fun l => acc ++ l) := by
  induction ms with
  | nil =>
      intro acc
      simp [groupErrorsList, Except.map, pure, Except.pure]
  | cons m rest ih =>
      intro acc
      rw [groupErrorsList, List.foldlM_cons, List.foldlM_cons]
      rw [processMember_shift acc m, show processMember [] m = memberEntriesOf m from rfl]
      cases hm : memberEntriesOf m with
      | error err => simp [Except.map, bind, Except.bind]
      | ok l =>
          simp only [Except.map, bind, Except.bind]
          rw [ih (acc ++ l), ih l]
          cases hg : groupErrorsList rest <;> simp [Except.map, List.append_assoc]

theorem groupErrorsList_eq_joined (ms : List GroupMember) :
    groupErrorsList ms = (ms.mapM memberEntriesOf).map List.flatten := by
  induction ms with
  | nil => rfl
  | cons m rest ih =>
      rw [groupErrorsList, List.foldlM_cons,
        show processMember [] m = memberEntriesOf m from rfl]
      rw [List.mapM_cons]
      cases hm : memberEntriesOf m with
      | error err => simp [bind, Except.bind, Except.map]
      | ok l =>
          have hshift := groupErrors_foldlM_shift rest l
          rw [ih] at hshift
          simp only [bind, Except.bind]
          rw [hshift]
          cases hr : rest.mapM memberEntriesOf <;>
            simp [hr, Except.map, pure, Except.pure]

theorem group_ok_inversion (ms : List GroupMember) (out : RenderResult)
    (h : exception_group_handler ms = .ok out) :
    ∃ (e : ErrorEntry) (rest : List ErrorEntry),
      groupErrorsList ms = .ok (e :: rest) ∧
      out.content.errors = some (e :: rest) ∧
      out.status_code = groupStatusCode ms ∧
      out.content.message = (if rest.isEmpty then e.message else .str "Multiple Errors") := by
  unfold exception_group_handler at h
  cases hg : groupErrorsList ms with
  | error err => rw [hg] at h; exact Except.noConfusion h
  | ok es =>
      rw [hg] at h
      cases es with
      | nil => exact Except.noConfusion h
      | cons e rest =>
          cases h
          exact ⟨e, rest, rfl, rfl, rfl, rfl⟩

theorem processMember_service_ok (acc : List ErrorEntry) (e : ServiceExcData) :
    ∃ l : List ErrorEntry, processMember acc (.service e) = .ok (acc ++ l) ∧ l ≠ [] := by
  show ∃ l, processDCWiz acc (dcwizServiceHandler e) = .ok (acc ++ l) ∧ l ≠ []
  unfold processDCWiz dcwizServiceHandler
  cases he : e.errors with
  | none =>
      exact ⟨[{ type := "Unknown", severity := .error,
                message := .str (pyOrStr e.message "Internal Service Error") }],
             by simp, by simp⟩
  | some l =>
      by_cases hl : l.isEmpty
      · exact ⟨[{ type := "Unknown", severity := .error,
                  message := .str (pyOrStr e.message "Internal Service Error") }],
               by simp [hl], by simp⟩
      · refine ⟨l.map (prefixEntry (pyOrStr e.message "Internal Service Error")), by simp [hl], ?_⟩
        simp only [ne_eq, List.map_eq_nil_iff]
        exact fun hnil => hl (by simp [hnil])

/-- Claim C4 (amended): the rendered batch status equals the single failure's
own status code only when the lone member is a `DCWizServiceException`; in
every other case — in particular a single failed API sub-request, and every
batch with two or more failures — the status is 500. -/
theorem C4_group_status_rule :
    (∀ e : ServiceExcData,
      statusOfRender (exception_group_handler [.service e]) = some e.status_code) ∧
    (∀ (a : APIExcData) (out : RenderResult),
      exception_group_handler [.api a] = .ok out → out.status_code = 500) ∧
    (∀ (ms : List GroupMember) (out : RenderResult), 2 ≤ ms.length →
      exception_group_handler ms = .ok out → out.status_code = 500) := by
  refine ⟨?_, ?_, ?_⟩
  · intro e
    obtain ⟨l, hl, hne⟩ := processMember_service_ok [] e
    have hg : groupErrorsList [.service e] = .ok l := by
      rw [groupErrorsList, List.foldlM_cons]
      rw [show processMember [] (GroupMember.service e) = Except.ok ([] ++ l) from hl]
      simp [List.foldlM_nil]
    cases l with
    | nil => exact absurd rfl hne
    | cons x rest =>
        rw [exception_group_handler, hg]
        rfl
  · intro a out h
    obtain ⟨e, rest, -, -, hst, -⟩ := group_ok_inversion [.api a] out h
    exact hst
  · intro ms out hlen h
    obtain ⟨e, rest, -, -, hst, -⟩ := group_ok_inversion ms out h
    rw [hst]
    match ms, hlen with
    | m1 :: m2 :: more, _ => cases m1 <;> rfl

/-- A single failed sub-request of a fan-out batch: platform surface, upstream
404, non-JSON body. -/
def notFoundExc : APIExcData :=
  { cls := .platform, method := "GET", url := "http://svc/items",
    response := { status_code := 404, text := "Not Found", jsonBody := none },
    message := none }

/-- The exception group produced by a fan-out batch in which only
`notFoundExc` failed. -/
def singleApiGroup : List GroupMember := [.api notFoundExc]

/-- A `DCWizServiceException` with an explicit status code. -/
def teapotServiceExc : ServiceExcData :=
  { error_message_key := .ERR_INTERNAL_ERROR, message := some "boom",
    errors := none, status_code := 418 }

/-- A two-failure group of `DCWizServiceException`s. -/
def twoServiceGroup : List GroupMember :=
  [.service teapotServiceExc, .service { teapotServiceExc with message := some "also boom" }]

/-- The rendering of a two-failure group of `DCWizServiceException`s. -/
def twoServiceOut : RenderResult :=
  { status_code := 500,
    content := {
      error_message_key := none,
      message := .str "Multiple Errors",
      errors := some [{ type := "Unknown", severity := .error, message := .str "boom" },
                      { type := "Unknown", severity := .error, message := .str "also boom" }] } }

/-- Witness for C4 at concrete groups: a singleton `DCWizServiceException`
group renders with its own 418, and a two-failure group renders with 500. -/
theorem C4_group_status_rule_witness :
    statusOfRender (exception_group_handler [.service teapotServiceExc]) = some 418 ∧
    exception_group_handler twoServiceGroup = .ok twoServiceOut ∧
    twoServiceOut.status_code = 500 :=
  ⟨C4_group_status_rule.1 teapotServiceExc,
   rfl,
   C4_group_status_rule.2.2 twoServiceGroup twoServiceOut (by decide) rfl⟩

/-- Counterexample to C4 as stated: a fan-out batch in which exactly one
sub-request failed — with a `DCWizPlatformAPIException` whose upstream status
is 404 — renders with status 500, not the failure's own 404, because the
single-failure branch of `exception_group_handler` requires a
`DCWizServiceException` and no API-surface failure is one. -/
theorem C4_counterexample :
    statusOfRender (exception_group_handler singleApiGroup) = some 500 ∧
    notFoundExc.response.status_code = 404 ∧ (500 : Nat) ≠ 404 := by
  exact ⟨by decide, rfl, by decide⟩

/-- The failing input for C3: an upstream 502 whose body is not valid JSON. -/
def badGatewayResponse : HttpxResponse :=
  { status_code := 502, text := "Bad Gateway", jsonBody := none }

/-- Claim C3 (code bug): the spec requires every kind's rendering never to
raise, with JSON-decode failures degrading to the raw response text — exactly
what the platform-API and data-API handlers do — but
`DCWizServiceAPIException.exception_handler` and
`DCWizAuthException.exception_handler` call `response.json()` outside any
`try`, so on a non-JSON upstream body both raise `JSONDecodeError` instead of
falling back to the text. -/
theorem C3_service_and_auth_render_raise_on_non_json :
    serviceAPIHandler { cls := .service, method := "GET", url := "http://svc/x",
                        response := badGatewayResponse, message := none } =
      .error .jsonDecodeError ∧
    authHandler { cls := .auth, method := "GET", url := "http://svc/login",
                  response := { status_code := 403, text := "forbidden", jsonBody := none },
                  message := none } =
      .error .jsonDecodeError ∧
    platformAPIHandler { cls := .platform, method := "GET", url := "http://svc/x",
                         response := badGatewayResponse, message := none } =
      .ok { status_code := 502,
            content := { error_message_key := some .ERR_DATA_ERROR,
                         message := .str "Error GETing http://svc/x, get status code 502",
                         errors := some [{ type := "API Error", severity := .error,
                                           message := .str "Bad Gateway" }] } } := by
  exact ⟨rfl, rfl, rfl⟩

/-- Claim C5 (amended): the combined `errors` list of a rendered batch error
is the concatenation of every sub-failure's individual entries; a sub-failure
rendering summary `s` and a nonempty inner list `l` contributes exactly `l`
with every message prefixed by the rstripped summary; and the top-level
message is "Multiple Errors" exactly when the combined list has more than one
entry — otherwise it is the single (already prefixed) entry's message, not the
sub-failure's bare summary. -/
theorem C5_group_errors_concat :
    (∀ ms : List GroupMember,
      groupErrorsList ms = (ms.mapM memberEntriesOf).map List.flatten) ∧
    (∀ (a : APIExcData) (r : RenderResult) (s : String) (l : List ErrorEntry),
      apiHandlerFor a = .ok r → r.content.message = .str s → r.content.errors = some l →
      l ≠ [] → memberEntriesOf (.api a) = .ok (l.map (prefixEntry s))) ∧
    (∀ (ms : List GroupMember) (out : RenderResult), exception_group_handler ms = .ok out →
      ∃ (e : ErrorEntry) (rest : List ErrorEntry),
        groupErrorsList ms = .ok (e :: rest) ∧
        out.content.errors = some (e :: rest) ∧
        out.content.message = (if rest.isEmpty then e.message else .str "Multiple Errors")) := by
  refine ⟨groupErrorsList_eq_joined, ?_, ?_⟩
  · intro a r s l hr hs hl hne
    have hemp : l.isEmpty = false := by
      cases l with
      | nil => exact absurd rfl hne
      | cons x xs => rfl
    show processDCWiz [] (apiHandlerFor a) = _
    rw [hr]
    simp [processDCWiz, hs, hl, hemp]
  · intro ms out h
    obtain ⟨e, rest, h1, h2, -, h4⟩ := group_ok_inversion ms out h
    exact ⟨e, rest, h1, h2, h4⟩

/-- The combined body rendered for `singleApiGroup`. -/
def singleApiOut : RenderResult :=
  { status_code := 500,
    content := {
      error_message_key := none,
      message := .str "Error GETing http://svc/items, get status code 404: Not Found",
      errors := some [{ type := "API Error", severity := .error,
                        message := .str
                          "Error GETing http://svc/items, get status code 404: Not Found" }] } }

/-- Witness for C5 at the concrete single-failure group. -/
theorem C5_group_errors_concat_witness :
    exception_group_handler singleApiGroup = .ok singleApiOut ∧
    (∃ (e : ErrorEntry) (rest : List ErrorEntry),
      groupErrorsList singleApiGroup = .ok (e :: rest) ∧
      singleApiOut.content.errors = some (e :: rest) ∧
      singleApiOut.content.message = (if rest.isEmpty then e.message else .str "Multiple Errors")) :=
  ⟨rfl, C5_group_errors_concat.2.2 singleApiGroup singleApiOut rfl⟩

/-- Counterexample to C5 as stated: with exactly one failed sub-request the
rendered top-level message is the prefixed single entry's message
(`"summary: body text"`), not the sub-failure's own summary message. -/
theorem C5_counterexample :
    messageOfRender (exception_group_handler singleApiGroup) =
      some (.str "Error GETing http://svc/items, get status code 404: Not Found") ∧
    messageOfRender (platformAPIHandler notFoundExc) =
      some (.str "Error GETing http://svc/items, get status code 404") ∧
    Json.str "Error GETing http://svc/items, get status code 404: Not Found" ≠
      Json.str "Error GETing http://svc/items, get status code 404" := by
  refine ⟨rfl, rfl, ?_⟩
  intro h
  exact absurd (Json.str.inj h) (by decide)

/-! ## TTL-jittered caching (`APIProxy.cache` / `APIProxy.async_cache`) -/

/-- One entry of a `cachetools.TTLCache`: the cached value and its insertion
time (seconds, as exact rationals). -/
structure TTLCacheEntry (V : Type) where
  value : V
  insertedAt : ℚ
  deriving Repr, DecidableEq

/-- The slice of a `cachetools.TTLCache` the claim concerns: the cache-level
`ttl` fixed at construction, the `maxsize` bound, and the live entries. -/
structure TTLCacheState (K V : Type) where
  ttl : ℚ
  maxsize : Nat
  entries : List (K × TTLCacheEntry V)
  deriving Repr, DecidableEq

/-- The cache built by ONE access of the `cache`/`async_cache` property (when
`cache_ttl > 0`): `TTLCache(maxsize=1024, ttl=self.cache_ttl +
uniform(-0.5, 0.5) * self.cache_ttl_var)`; `u` is the value `uniform` drew,
sampled once here, at decoration time. -/
def mkDecoratorCache (K V : Type) (cache_ttl cache_ttl_var u : ℚ) : TTLCacheState K V :=
  { ttl := cache_ttl + u * cache_ttl_var, maxsize := 1024, entries := [] }

/-- `cache[key] = value` at time `now` (replacing any previous entry). -/
def TTLCacheState.insert {K V : Type} [DecidableEq K] (c : TTLCacheState K V) (k : K) (v : V)
    (now : ℚ) : TTLCacheState K V :=
  { c with entries :=
      (k, { value := v, insertedAt := now }) :: c.entries.filter (fun p => decide (p.1 ≠ k)) }

/-- The instant at which an entry of cache `c` expires: `cachetools` stores
`insertion time + ttl` with `ttl` the cache-level constant. -/
def TTLCacheState.expiresAt {K V : Type} (c : TTLCacheState K V) (e : TTLCacheEntry V) : ℚ :=
  e.insertedAt + c.ttl

/-- Cache lookup at time `now`: a hit needs the key present and unexpired. -/
def TTLCacheState.getAt {K V : Type} [DecidableEq K] (c : TTLCacheState K V) (k : K)
    (now : ℚ) : Option V :=
  match lookupAssoc c.entries k with
  | some e => if now < c.expiresAt e then some e.value else none
  | none => none

/-- A sequence of cache insertions of one decorated function. -/
def insertAll {K V : Type} [DecidableEq K] (c : TTLCacheState K V) :
    List (K × V × ℚ) → TTLCacheState K V
  | [] => c
  | (k, v, t) :: rest => insertAll (c.insert k v t) rest

theorem ttl_insertAll {K V : Type} [DecidableEq K] (c : TTLCacheState K V)
    (l : List (K × V × ℚ)) : (insertAll c l).ttl = c.ttl := by
  induction l generalizing c with
  | nil => rfl
  | cons p rest ih =>
      obtain ⟨k, v, t⟩ := p
      exact ih (c.insert k v t)

/-- Claim C6 (amended): the jitter offset is sampled ONCE when the decorator
is built (per access of the `cache`/`async_cache` property), not per entry:
after any sequence of insertions into the cache of one decorated function,
every entry expires exactly `cache_ttl + u * cache_ttl_var` after its own
insertion, with one shared sampled `u` (drawn from `uniform(-0.5, 0.5)` scaled
by `cache_ttl_var`), so two entries of the same decorated function always have
equal expiry durations. -/
theorem C6_ttl_jitter_per_cache {K V : Type} [DecidableEq K]
    (cache_ttl cache_ttl_var u : ℚ) (_hu : -(1 / 2 : ℚ) ≤ u ∧ u ≤ 1 / 2)
    (ops : List (K × V × ℚ)) (k : K) (v : V) (t now : ℚ) :
    (∀ p ∈ (insertAll (mkDecoratorCache K V cache_ttl cache_ttl_var u) ops).entries,
      (insertAll (mkDecoratorCache K V cache_ttl cache_ttl_var u) ops).expiresAt p.2
          - p.2.insertedAt = cache_ttl + u * cache_ttl_var) ∧
    ((insertAll (mkDecoratorCache K V cache_ttl cache_ttl_var u) ops).insert k v t).getAt k now
      = (if now < t + (cache_ttl + u * cache_ttl_var) then some v else none) := by
  have httl : (insertAll (mkDecoratorCache K V cache_ttl cache_ttl_var u) ops).ttl
      = cache_ttl + u * cache_ttl_var := ttl_insertAll _ _
  constructor
  · intro p _
    simp only [TTLCacheState.expiresAt, httl]
    ring
  · simp [TTLCacheState.getAt, TTLCacheState.insert, lookupAssoc,
      TTLCacheState.expiresAt, httl]

/-- The cache one decorator access builds with `cache_ttl = 120`,
`cache_ttl_var = 60` and a sampled jitter factor of `1/4`, after caching two
results ten seconds apart. -/
def jitterCacheExample : TTLCacheState Nat Nat :=
  insertAll (mkDecoratorCache Nat Nat 120 60 (1 / 4)) [(1, 11, 0), (2, 22, 10)]

/-- Witness for C6: in `jitterCacheExample` every entry lives exactly
`120 + (1/4) * 60` seconds, and a fresh entry inserted at 20 is still
retrievable at time 100. -/
theorem C6_ttl_jitter_per_cache_witness :
    (∀ p ∈ jitterCacheExample.entries,
      jitterCacheExample.expiresAt p.2 - p.2.insertedAt = 120 + (1 / 4) * 60) ∧
    (jitterCacheExample.insert 3 33 20).getAt 3 100
      = (if (100 : ℚ) < 20 + (120 + (1 / 4) * 60) then some 33 else none) :=
  C6_ttl_jitter_per_cache 120 60 (1 / 4) (by constructor <;> norm_num)
    [(1, 11, 0), (2, 22, 10)] 3 33 20 100

/-- Counterexample to C6 as stated: the two entries of the same decorated
function were inserted at different times yet have the SAME expiry duration
`135 = 120 + (1/4) * 60`; the jitter was drawn once for the whole cache at
decoration time, not independently per entry. -/
theorem C6_counterexample :
    (lookupAssoc jitterCacheExample.entries 1).map
        (fun e => jitterCacheExample.expiresAt e - e.insertedAt) = some 135 ∧
    (lookupAssoc jitterCacheExample.entries 2).map
        (fun e => jitterCacheExample.expiresAt e - e.insertedAt) = some 135 := by
  constructor <;>
  · norm_num [jitterCacheExample, insertAll, mkDecoratorCache, TTLCacheState.insert,
      TTLCacheState.expiresAt, lookupAssoc, List.filter]

/-! ## Tabular merge (`APIProxy._process_dataframe` / `_merge_dataframe`) -/

/-- A `pandas.DataFrame` as read by the merge: the index labels plus the named
data columns. -/
structure DataFrame where
  index : List Json
  cols : List (String × List Json)
  deriving Repr, DecidableEq

/-- `pd.DataFrame.from_dict(r)` for a column-oriented record: the default
`RangeIndex` over the common column length. -/
def dataFrameFromDict (body : List (String × List Json)) : DataFrame :=
  { index := (List.range (body.headD ("", []) |>.2.length)).map (fun i => Json.num (Int.ofNat i)),
    cols := body }

/-- `df.set_index(on)`: move column `onKey` into the index (`KeyError` when
the column is absent). -/
def setIndex (df : DataFrame) (onKey : String) : Except PyError DataFrame :=
  match lookupAssoc df.cols onKey with
  | some vals => .ok { index := vals, cols := df.cols.filter (fun p => decide (p.1 ≠ onKey)) }
  | none => .error (.keyError onKey)

/-- Index dtypes distinguished by the merge: all-integer (`int64`) versus
`object`. -/
inductive Dtype where
  | intD
  | objectD
  deriving Repr, DecidableEq

/-- The inferred dtype of an index. -/
def indexDtype (idx : List Json) : Dtype :=
  if idx.all (fun j => match j with | .num _ => true | _ => false) then .intD else .objectD

/-- `Index.astype(guessed_type)` on one label. -/
def castJson : Dtype → Json → Except PyError Json
  | .objectD, j => .ok j
  | .intD, .num n => .ok (.num n)
  | .intD, .bool b => .ok (.num (if b then 1 else 0))
  | .intD, .str s =>
      match s.toInt? with
      | some n => .ok (.num n)
      | none => .error (.validationError "invalid literal for int")
  | .intD, _ => .error (.typeError "int() argument")

/-- Append a label unless already present (ordered union). -/
def insertUniqueLabel (acc : List Json) (x : Json) : List Json :=
  if acc.contains x then acc else acc ++ [x]

/-- The union of all frame indexes, in order of first appearance. -/
def indexUnion (idxs : List (List Json)) : List Json :=
  idxs.foldl (fun acc l => l.foldl insertUniqueLabel acc) []

/-- Align one column to the combined index (`null` plays `NaN`). -/
def reindexColumn (dfIndex : List Json) (vals : List Json) (target : List Json) : List Json :=
  target.map (fun lbl =>
    match dfIndex.indexOf? lbl with
    | some i => vals.getD i .null
    | none => .null)

/-- `pd.concat(df, axis=1)`: outer-join on the union of all indexes, keeping
every original column. -/
def concatAxis1 (dfs : List DataFrame) : DataFrame :=
  let target := indexUnion (dfs.map (fun d => d.index))
  { index := target,
    cols := (dfs.map (fun d => d.cols.map (fun p => (p.1, reindexColumn d.index p.2 target)))).flatten }

/-- The two input shapes of `_merge_dataframe`. -/
inductive MergeInput where
  | ofList (dfs : List DataFrame)
  | ofDict (kvs : List (String × DataFrame))
  deriving Repr, DecidableEq

/-- `APIProxy._merge_dataframe`. On dict input the source evaluates
`list[df.values()]` — a `types.GenericAlias` type subscription, not the call
`list(df.values())` — and then iterates it, so every dict-shaped batch raises
`TypeError`. On list input: optional `set_index(on)` per frame (skipped for
the sentinel `"_index"`), homogenise index dtypes to the first non-`object`
one, then concatenate column-wise. -/
def merge_dataframe (input : MergeInput) (onKey : String) : Except PyError DataFrame :=
  match input with
  | .ofDict _ => .error (.typeError "types.GenericAlias object is not iterable")
  | .ofList dfs => do
      let dfs1 ←
        if onKey ≠ "_index" then dfs.mapM (fun r => setIndex r onKey)
        else pure dfs
      let guessed : Option Dtype :=
        (dfs1.map (fun r => indexDtype r.index)).find? (fun d => decide (d ≠ .objectD))
      let dfs2 ←
        match guessed with
        | some d => dfs1.mapM (fun r => do
            let idx ← r.index.mapM (castJson d)
            pure { index := idx, cols := r.cols })
        | none => pure dfs1
      pure (concatAxis1 dfs2)

/-- The raw decoded fan-out bodies handed to `_process_dataframe`
(column-oriented records, in the batch's own shape). -/
inductive RawFanout where
  | ofList (bodies : List (List (String × List Json)))
  | ofDict (kvs : List (String × List (String × List Json)))
  deriving Repr, DecidableEq

/-- What `_process_dataframe` returns: the converted frames in the batch
shape, or the single merged frame. -/
inductive ProcessOutput where
  | frames (dfs : List DataFrame)
  | framesDict (kvs : List (String × DataFrame))
  | merged (df : DataFrame)
  deriving Repr, DecidableEq

/-- `APIProxy._process_dataframe`: convert every body to a frame keeping the
batch shape, then merge when `merge_dataframe_on` is truthy. -/
def process_dataframe (raw : RawFanout) (mergeOn : Option String) :
    Except PyError ProcessOutput :=
  let conv : MergeInput :=
    match raw with
    | .ofList bodies => .ofList (bodies.map dataFrameFromDict)
    | .ofDict kvs => .ofDict (kvs.map (fun kv => (kv.1, dataFrameFromDict kv.2)))
  let unmerged : ProcessOutput :=
    match conv with
    | .ofList dfs => .frames dfs
    | .ofDict kvs => .framesDict kvs
  match mergeOn with
  | some onKey => if onKey = "" then .ok unmerged else (merge_dataframe conv onKey).map .merged
  | none => .ok unmerged

/-- Claim C8 (code bug): the merge is claimed to be a pure function returning
the same combined table on repeated application to any sequence- or
mapping-shaped fan-out result set; but `_merge_dataframe` begins with
`df = list[df.values()]` — a typo for `list(df.values())` that builds a
`types.GenericAlias` — so EVERY mapping-shaped merge crashes with `TypeError`
and produces no combined table at all, while the same data in list shape
merges fine. -/
theorem C8_dict_merge_crashes :
    process_dataframe (.ofDict [("a", [("x", [.num 1])]), ("b", [("y", [.num 2])])])
        (some "_index") =
      .error (.typeError "types.GenericAlias object is not iterable") ∧
    process_dataframe (.ofList [[("x", [.num 1])], [("y", [.num 2])]]) (some "_index") =
      .ok (.merged { index := [.num 0], cols := [("x", [.num 1]), ("y", [.num 2])] }) := by
  exact ⟨rfl, rfl⟩

/-! ## Redis pool registry (`db.py`) -/

/-- The redis configuration keys `get_redis_pool` reads (`none` = key absent,
so the documented default applies). -/
structure RedisSettings where
  host : Option String
  port : Option Nat
  db : Option Nat
  password : Option String
  deriving Repr, DecidableEq

/-- `config.get("redis.host", "localhost")`. -/
def redisHost (c : RedisSettings) : String := c.host.getD "localhost"

/-- `config.get("redis.port", 6379)`. -/
def redisPort (c : RedisSettings) : Nat := c.port.getD 6379

/-- `config.get("redis.db", 0)`. -/
def redisDb (c : RedisSettings) : Nat := c.db.getD 0

/-- `pool_key = f"{host}:{port}:{db}"` — note: no password component. -/
def poolKey (c : RedisSettings) : String :=
  redisHost c ++ ":" ++ toString (redisPort c) ++ ":" ++ toString (redisDb c)

/-- A `redis.ConnectionPool` as constructed by `get_redis_pool`; `uid` models
object identity. -/
structure ConnectionPool where
  host : String
  port : Nat
  db : Nat
  password : Option String
  max_connections : Nat
  retry_on_timeout : Bool
  socket_timeout : Nat
  socket_connect_timeout : Nat
  socket_keepalive : Bool
  health_check_interval : Nat
  decode_responses : Bool
  uid : Nat
  deriving Repr, DecidableEq

/-- The `ConnectionPool(...)` construction inside `get_redis_pool`. -/
def mkConnectionPool (c : RedisSettings) (uid : Nat) : ConnectionPool :=
  { host := redisHost c, port := redisPort c, db := redisDb c, password := c.password,
    max_connections := 20, retry_on_timeout := true, socket_timeout := 5,
    socket_connect_timeout := 5, socket_keepalive := true, health_check_interval := 30,
    decode_responses := true, uid := uid }

/-- The module-level `_redis_pools` registry (mutations happen under
`_pool_lock`, modelled as atomic state passing), plus a uid supply. -/
structure PoolRegistry where
  pools : List (String × ConnectionPool)
  nextUid : Nat
  deriving Repr, DecidableEq

/-- `get_redis_pool`: compute the key, create the pool only on a miss, return
the registered pool. -/
def get_redis_pool (st : PoolRegistry) (c : RedisSettings) : ConnectionPool × PoolRegistry :=
  let key := poolKey c
  match lookupAssoc st.pools key with
  | some p => (p, st)
  | none =>
      let p := mkConnectionPool c st.nextUid
      (p, { pools := (key, p) :: st.pools, nextUid := st.nextUid + 1 })

/-- Claim C10: the registry is keyed only by `host:port:db`. For two
configurations agreeing on host, port and db (after defaults), the second
`get_redis_pool` call returns the identical pool object and leaves the
registry unchanged — even when the passwords differ — and when the key was not
yet registered, the pool created by the first call carries the FIRST
configuration's password. -/
theorem C10_pool_registry_keyed_by_host_port_db (st : PoolRegistry) (c1 c2 : RedisSettings)
    (hhost : redisHost c1 = redisHost c2) (hport : redisPort c1 = redisPort c2)
    (hdb : redisDb c1 = redisDb c2) :
    ((get_redis_pool (get_redis_pool st c1).2 c2).1 = (get_redis_pool st c1).1 ∧
     (get_redis_pool (get_redis_pool st c1).2 c2).2 = (get_redis_pool st c1).2) ∧
    (lookupAssoc st.pools (poolKey c1) = none →
      (get_redis_pool st c1).1.password = c1.password) := by
  have hkey : poolKey c2 = poolKey c1 := by
    rw [poolKey, poolKey, hhost, hport, hdb]
  constructor
  · cases h : lookupAssoc st.pools (poolKey c1) with
    | some p =>
        constructor <;> simp [get_redis_pool, hkey, h]
    | none =>
        constructor <;> simp [get_redis_pool, hkey, h, lookupAssoc]
  · intro hfresh
    simp [get_redis_pool, hfresh, mkConnectionPool]

/-- A first configuration with an explicit password. -/
def redisConfigA : RedisSettings :=
  { host := some "cache.internal", port := none, db := none, password := some "hunter2" }

/-- A second configuration: same host, port and db, different password. -/
def redisConfigB : RedisSettings :=
  { host := some "cache.internal", port := none, db := none, password := some "different" }

/-- The empty registry at process start. -/
def emptyPoolRegistry : PoolRegistry := { pools := [], nextUid := 0 }

/-- Witness for C10: starting from the empty registry, the differing-password
configuration still receives the first configuration's pool (which kept the
first password), and nothing new is created. -/
theorem C10_pool_registry_keyed_by_host_port_db_witness :
    ((get_redis_pool (get_redis_pool emptyPoolRegistry redisConfigA).2 redisConfigB).1 =
        (get_redis_pool emptyPoolRegistry redisConfigA).1 ∧
     (get_redis_pool (get_redis_pool emptyPoolRegistry redisConfigA).2 redisConfigB).2 =
        (get_redis_pool emptyPoolRegistry redisConfigA).2) ∧
    (get_redis_pool emptyPoolRegistry redisConfigA).1.password = some "hunter2" :=
  ⟨(C10_pool_registry_keyed_by_host_port_db emptyPoolRegistry redisConfigA redisConfigB
      rfl rfl rfl).1,
   (C10_pool_registry_keyed_by_host_port_db emptyPoolRegistry redisConfigA redisConfigB
      rfl rfl rfl).2 rfl⟩

end DCWiz
